import Mathlib

/-!
Verification of the standard response/error envelope builders and the
tool-call middleware pipeline of the MCP search server repository.

Embedded sources:
- src/src/mcp_servers/base_server.py (StandardResponse, StandardErrorResponse,
  create_standard_response, create_error_response, ErrorHandlingMiddleware,
  LoggingMiddleware, TimingMiddleware, _install_core_middlewares)
- src/src/mcp_servers/tavily_search/server.py (search_web, search_finance, search_news)
- src/src/mcp_servers/tavily_search/client.py (TavilySearchClient.__init__, search)
- src/src/utils/env_validator.py (get_env_variable)
-/

namespace Spec2Proof

/-- Python/JSON values, as far as the envelopes and tool results need them.
Python None is represented by `Option.none` at typed-field positions and by
`Json.null` inside payloads. -/
inductive Json where
  | null : Json
  | bool : Bool → Json
  | num : Int → Json
  | str : String → Json
  | arr : List Json → Json
  | obj : List (String × Json) → Json
deriving Repr

/-- Python exception value: its type name and its message.
`str(e)` of a single-argument exception is its message. -/
structure PyExc where
  ty : String
  msg : String
deriving Repr, DecidableEq

/-- Model of Python `str(error)` for a single-message exception. -/
def PyExc.toStr (e : PyExc) : String := e.msg

-- -----------------------------------------------------------
-- Envelope models (base_server.py lines 19-41)
-- -----------------------------------------------------------

/-- Embedding of the pydantic model `StandardResponse` of base_server.py:
fields success, query, data (default None), error (default None), plus
`model_config = ConfigDict(extra=allow)` extra fields. -/
structure StandardResponse where
  success : Bool
  query : String
  data : Option Json
  error : Option String
  extra : List (String × Json)
deriving Repr

/-- Embedding of the pydantic model `StandardErrorResponse` of base_server.py:
fields success (default False), query, error, func_name (default None),
plus extra fields. -/
structure StandardErrorResponse where
  success : Bool
  query : String
  error : String
  func_name : Option String
  extra : List (String × Json)
deriving Repr

/-- Serialization helper: a typed optional field is emitted only when its
value is not Python None (`model_dump(exclude_none=True)`). -/
def optField (k : String) (v : Option Json) : List (String × Json) :=
  match v with
  | some j => [(k, j)]
  | none => []

/-- Serialization of extra fields under exclude_none: an extra field whose
value is Python None (Json.null) is dropped. -/
def dumpExtra (extra : List (String × Json)) : List (String × Json) :=
  extra.filter (fun kv => !(kv.2 matches Json.null))

/-- Embedding of `StandardResponse(...).model_dump(exclude_none=True)`:
declared fields in declaration order, optional fields dropped when None,
then the extra fields. -/
def StandardResponse.dump (r : StandardResponse) : List (String × Json) :=
  [("success", Json.bool r.success), ("query", Json.str r.query)]
    ++ optField "data" r.data
    ++ optField "error" (r.error.map Json.str)
    ++ dumpExtra r.extra

/-- Embedding of `StandardErrorResponse(...).model_dump(exclude_none=True)`. -/
def StandardErrorResponse.dump (r : StandardErrorResponse) : List (String × Json) :=
  [("success", Json.bool r.success), ("query", Json.str r.query),
   ("error", Json.str r.error)]
    ++ optField "func_name" (r.func_name.map Json.str)
    ++ dumpExtra r.extra

-- -----------------------------------------------------------
-- Envelope builders (base_server.py lines 116-170)
-- -----------------------------------------------------------

/-- Embedding of `BaseMCPServer.create_standard_response` (base_server.py
lines 116-143): builds a StandardResponse from the four declared parameters
(the signature has no kwargs, so no extra fields can arrive here) and
serializes it with exclude_none. -/
def create_standard_response (success : Bool) (query : String)
    (data : Option Json) (error : Option String) : List (String × Json) :=
  (StandardResponse.mk success query data error []).dump

/-- Embedding of `BaseMCPServer.create_error_response` (base_server.py lines
145-170): builds a StandardErrorResponse with error set to `str(error)`,
success set to False, and serializes it with exclude_none. -/
def create_error_response (error : PyExc) (query : String)
    (func_name : Option String) : List (String × Json) :=
  (StandardErrorResponse.mk false query (PyExc.toStr error) func_name []).dump

/-- Result of a Python function call: a value, or a TypeError raised by the
call machinery itself (for example an unexpected keyword argument). -/
inductive PyCall (α : Type) where
  | ok : α → PyCall α
  | typeError : PyCall α
deriving Repr

/-- Model of invoking `create_standard_response` with additional keyword
arguments. The def in base_server.py declares exactly
(success, query, data, error) and no kwargs, so Python raises TypeError
for any unexpected keyword before the body runs. -/
def call_create_standard_response (success : Bool) (query : String)
    (data : Option Json) (error : Option String)
    (extra_kwargs : List (String × Json)) : PyCall (List (String × Json)) :=
  match extra_kwargs with
  | [] => PyCall.ok (create_standard_response success query data error)
  | _ => PyCall.typeError

/-- Model of invoking `create_error_response` with additional keyword
arguments; its def declares exactly (error, query, func_name) and no
kwargs, so Python raises TypeError for any unexpected keyword. -/
def call_create_error_response (error : PyExc) (query : String)
    (func_name : Option String)
    (extra_kwargs : List (String × Json)) : PyCall (List (String × Json)) :=
  match extra_kwargs with
  | [] => PyCall.ok (create_error_response error query func_name)
  | _ => PyCall.typeError

/-- Lookup of a key in a serialized envelope (first occurrence). -/
def lookupField (fields : List (String × Json)) (k : String) : Option Json :=
  (fields.find? (fun kv => kv.1 == k)).map (fun kv => kv.2)

/-- Keys of a serialized envelope, in order. -/
def envelopeKeys (fields : List (String × Json)) : List String :=
  fields.map (fun kv => kv.1)

-- -----------------------------------------------------------
-- Middleware pipeline (base_server.py lines 202-309)
-- -----------------------------------------------------------

/-- Log severity of the records emitted through the server logger. -/
inductive LogLevel where
  | info : LogLevel
  | warn : LogLevel
  | err : LogLevel
deriving Repr, DecidableEq

/-- One record emitted through the logger. -/
structure LogRecord where
  level : LogLevel
  msg : String
deriving Repr, DecidableEq

/-- Per-invocation state threaded through the middleware chain: the records
appended to the process logger, a monotonic clock in milliseconds standing
for time.perf_counter (the source stores the duration as a float of
milliseconds; the claims only need ordering and plumbing, so the clock is a
Nat of milliseconds), and the per-call FastMCP context-state slot named
duration_ms (None until set_state stores a value). -/
structure InvState where
  logs : List LogRecord
  clock : Nat
  duration_ms : Option Nat
deriving Repr, DecidableEq

/-- Keyword arguments accepted by CPython logging.Logger.error / info /
warning: the underlying Logger._log call accepts exactly exc_info,
stack_info, stacklevel and extra; any other keyword raises TypeError at the
call, before any record is created. -/
def loggingKwargAllowed (k : String) : Bool :=
  k == "exc_info" || k == "stack_info" || k == "stacklevel" || k == "extra"

/-- The AttributeError raised when a method is invoked on a None logger
(the message text of CPython names the missing attribute; only the
exception type matters to the claims). -/
def noneAttributeError : PyExc :=
  PyExc.mk "AttributeError" "NoneType object has no attribute"

/-- The TypeError raised by Logger._log for an unexpected keyword argument. -/
def loggingKwargTypeError : PyExc :=
  PyExc.mk "TypeError" "_log got an unexpected keyword argument"

/-- Model of `logger.<level>(msg, **kwargs)` where logger may be None.
On a None logger the attribute access raises AttributeError; with an
unexpected keyword CPython raises TypeError before emitting; otherwise the
record is appended. The server logger is configured at level INFO in
BaseMCPServer.__init__, so every severity used here is enabled. -/
def loggerCall (logger : Option Unit) (level : LogLevel)
    (kwargs : List String) (msg : String) (s : InvState) :
    Except PyExc InvState :=
  match logger with
  | none => Except.error noneAttributeError
  | some _ =>
    if kwargs.all loggingKwargAllowed then
      Except.ok { s with logs := s.logs ++ [LogRecord.mk level msg] }
    else
      Except.error loggingKwargTypeError

/-- A handler is one stage of the call chain: it transforms the invocation
state and returns the tool result or a raised fault. -/
def Handler : Type := InvState → InvState × Except PyExc Json

/-- Embedding of `ErrorHandlingMiddleware.on_call_tool` (base_server.py
lines 214-248): delegate via call_next; on a fault, attempt to log it —
if the logger is truthy, `logger.error(f"ToolError : ...", exec_info=True)`
is called (the source spells the keyword exec_info, which CPython rejects
with TypeError), otherwise `logger.warning(...)` is called on the None
logger (AttributeError); either way the inner `except Exception: pass`
swallows that failure, and the original fault is re-raised. -/
def errorHandlingOnCallTool (logger : Option Unit) (call_next : Handler) :
    Handler :=
  fun s =>
    match call_next s with
    | (s1, Except.ok v) => (s1, Except.ok v)
    | (s1, Except.error e) =>
      let attempt : Except PyExc InvState :=
        match logger with
        | some _ =>
          loggerCall logger LogLevel.err ["exec_info"]
            ("ToolError : " ++ e.msg) s1
        | none =>
          loggerCall none LogLevel.warn [] "Logger Not Found in Server" s1
      match attempt with
      | Except.ok s2 => (s2, Except.error e)
      | Except.error _ => (s1, Except.error e)

/-- Python repr of the duration_ms value read via get_state: None prints as
None, a number prints as itself. -/
def pyShowOptNat : Option Nat → String
  | none => "None"
  | some n => toString n

/-- Embedding of `LoggingMiddleware.on_call_tool` (base_server.py lines
250-288). If the logger is truthy, the start record is emitted (its
request/client/session metadata is elided from the message text); otherwise
the source calls `logger.warning(...)` on the None logger, which raises
AttributeError, and the outer `except Exception: raise` re-raises it, so
the whole call fails before delegation. After a successful delegation, the
end record is emitted with the value read by get_state("duration_ms")
(None when the slot is unset); faults in that inner block are swallowed.
A fault from the delegate propagates through the outer re-raise. -/
def loggingOnCallTool (logger : Option Unit) (call_next : Handler) :
    Handler :=
  fun s =>
    let startAttempt : Except PyExc InvState :=
      match logger with
      | some _ =>
        loggerCall logger LogLevel.info [] "Start Processing Tool Request" s
      | none =>
        loggerCall none LogLevel.warn [] "Logger Not Found in Server" s
    match startAttempt with
    | Except.error e => (s, Except.error e)
    | Except.ok s1 =>
      match call_next s1 with
      | (s2, Except.error e) => (s2, Except.error e)
      | (s2, Except.ok v) =>
        match logger with
        | none => (s2, Except.ok v)
        | some _ =>
          match loggerCall logger LogLevel.info []
              ("Successfully Processed Tool Request : duration_ms="
                ++ pyShowOptNat s2.duration_ms) s2 with
          | Except.ok s3 => (s3, Except.ok v)
          | Except.error _ => (s2, Except.ok v)

/-- Embedding of `TimingMiddleware.on_call_tool` (base_server.py lines
290-309): record the clock, delegate, and in the finally block (which runs
on both the normal and the fault path) store the elapsed milliseconds into
the context-state slot duration_ms; a set_state failure would be swallowed
(set_state cannot fail in this model). -/
def timingOnCallTool (call_next : Handler) : Handler :=
  fun s =>
    let start := s.clock
    match call_next s with
    | (s1, r) => ({ s1 with duration_ms := some (s1.clock - start) }, r)

/-- Embedding of `_install_core_middlewares` (base_server.py lines 202-209)
composed with the FastMCP dispatch order: add_middleware is called with
ErrorHandlingMiddleware, then TimingMiddleware, then LoggingMiddleware, and
FastMCP runs the first-added middleware as the outermost layer, so the
chain around a tool handler is errorHandling (timing (logging tool)). -/
def middlewareChain (logger : Option Unit) (tool : Handler) : Handler :=
  errorHandlingOnCallTool logger
    (timingOnCallTool (loggingOnCallTool logger tool))

/-- A wrapped tool that consumes d milliseconds and then finishes with the
given outcome (a return value or a raised fault). -/
def sleepThen (d : Nat) (outcome : Except PyExc Json) : Handler :=
  fun s => ({ s with clock := s.clock + d }, outcome)

/-- Invocation state at the start of a call: no logs, clock at zero, the
duration_ms context slot unset. -/
def initState : InvState := InvState.mk [] 0 none

/-- Number of error-severity records in a log. -/
def errorLogCount (logs : List LogRecord) : Nat :=
  (logs.filter (fun r => r.level == LogLevel.err)).length

-- -----------------------------------------------------------
-- Environment reading and Tavily client (env_validator.py, client.py)
-- -----------------------------------------------------------

/-- Embedding of `get_env_variable` (env_validator.py lines 30-31):
`os.getenv(key, default)` returns the environment value when the variable
is set and the default otherwise; it never raises. The process environment
is a map from names to optional string values. -/
def get_env_variable (env : String → Option String) (key : String)
    (dflt : Option String) : Option String :=
  match env key with
  | some v => some v
  | none => dflt

/-- The placeholder value that signals an unconfigured Tavily API key
(client.py lines 31-34). -/
def tavily_sentinel : String := "INPUT_YOUR_API_KEY"

/-- The warning record emitted when the key equals the placeholder. -/
def tavilyKeyWarning : LogRecord :=
  LogRecord.mk LogLevel.warn
    "Tavily API Key is not set. Please set TAVILY_API_KEY in env."

/-- Embedding of `TavilySearchClient.__init__` (client.py lines 21-34):
read TAVILY_API_KEY once with the placeholder as default, store it as
api_key, and emit one warning record exactly when the stored key equals the
placeholder. Every operation in the body (getenv, string comparison, a
logger.warning call with valid arguments on the configured module logger)
is non-raising, so the embedding is a total function: construction
completes normally for every environment. -/
def TavilySearchClient_init (env : String → Option String) :
    Option String × List LogRecord :=
  let api_key := get_env_variable env "TAVILY_API_KEY" (some tavily_sentinel)
  (api_key,
   if api_key = some tavily_sentinel then [tavilyKeyWarning] else [])

/-- Parameter record handed to the external Tavily search provider
(client.py lines 84-100, the search_params dict). -/
structure SearchParams where
  query : String
  max_results : Option Int
  search_depth : Option String
  topic : String
  time_range : Option String
  start_date : Option String
  end_date : Option String
  days : Option Int
  include_domains : Option (List String)
  exclude_domains : Option (List String)
  include_answer : Option Json
  include_raw_content : Option Json
  include_images : Option Bool
  timeout : Option Int
  country : Option String
deriving Repr

/-- Model of the Python expression `topic or "general"`: None and the empty
string are falsy and fall back to the default. -/
def pyOrStr (v : Option String) (dflt : String) : String :=
  match v with
  | none => dflt
  | some s => if s == "" then dflt else s

/-- Embedding of the search_params construction inside
`TavilySearchClient.search` (client.py lines 84-100): every parameter is
passed through unchanged except topic, which is `topic or "general"`. -/
def tavily_search_params (query : String) (search_depth : Option String)
    (topic : Option String) (time_range : Option String)
    (start_date : Option String) (end_date : Option String)
    (days : Option Int) (max_results : Option Int)
    (include_domains : Option (List String))
    (exclude_domains : Option (List String))
    (include_answer : Option Json) (include_raw_content : Option Json)
    (include_images : Option Bool) (timeout : Option Int)
    (country : Option String) : SearchParams :=
  SearchParams.mk query max_results search_depth (pyOrStr topic "general")
    time_range start_date end_date days include_domains exclude_domains
    include_answer include_raw_content include_images timeout country

-- -----------------------------------------------------------
-- Tavily search tools (tavily_search/server.py)
-- -----------------------------------------------------------

/-- Caller-visible parameters of the search_web tool (server.py lines
20-36). In the Python signature search_depth defaults to "basic", topic to
"general", max_results to 5, timeout to 60 and the remaining optionals to
None; FastMCP fills the defaults before the body runs, so the record holds
the effective values. topic is a Literal of general, news and finance. -/
structure SearchWebArgs where
  query : String
  search_depth : String
  topic : String
  time_range : Option String
  start_date : Option String
  end_date : Option String
  days : Option Int
  max_results : Int
  include_domains : Option (List String)
  exclude_domains : Option (List String)
  include_answer : Option Json
  include_raw_content : Option Json
  include_images : Option Bool
  timeout : Int
  country : Option String
deriving Repr

/-- Caller-visible parameters of the search_finance and search_news tools
(server.py lines 87-102 and 152-167): identical to SearchWebArgs except
that no topic parameter is exposed at all. -/
structure SearchTopicArgs where
  query : String
  search_depth : String
  time_range : Option String
  start_date : Option String
  end_date : Option String
  days : Option Int
  max_results : Int
  include_domains : Option (List String)
  exclude_domains : Option (List String)
  include_answer : Option Json
  include_raw_content : Option Json
  include_images : Option Bool
  timeout : Int
  country : Option String
deriving Repr

/-- The provider parameters produced by a search_web invocation (server.py
lines 59-75): every argument is forwarded to TavilySearchClient.search,
including the caller-supplied topic. -/
def search_web_provider_params (a : SearchWebArgs) : SearchParams :=
  tavily_search_params a.query (some a.search_depth) (some a.topic)
    a.time_range a.start_date a.end_date a.days (some a.max_results)
    a.include_domains a.exclude_domains a.include_answer
    a.include_raw_content a.include_images (some a.timeout) a.country

/-- The provider parameters produced by a search_finance invocation
(server.py lines 124-140): the topic argument is the literal finance. -/
def search_finance_provider_params (a : SearchTopicArgs) : SearchParams :=
  tavily_search_params a.query (some a.search_depth) (some "finance")
    a.time_range a.start_date a.end_date a.days (some a.max_results)
    a.include_domains a.exclude_domains a.include_answer
    a.include_raw_content a.include_images (some a.timeout) a.country

/-- The provider parameters produced by a search_news invocation (server.py
lines 189-205): the topic argument is the literal news. -/
def search_news_provider_params (a : SearchTopicArgs) : SearchParams :=
  tavily_search_params a.query (some a.search_depth) (some "news")
    a.time_range a.start_date a.end_date a.days (some a.max_results)
    a.include_domains a.exclude_domains a.include_answer
    a.include_raw_content a.include_images (some a.timeout) a.country

/-- Model of Python `len(x)` on provider results: sized values report their
length, anything without a length raises TypeError. -/
def pyLen : Json → Except PyExc Nat
  | Json.str s => Except.ok s.length
  | Json.arr xs => Except.ok xs.length
  | Json.obj fs => Except.ok fs.length
  | _ => Except.error (PyExc.mk "TypeError" "object has no len")

/-- Shared body of the three tool functions in server.py (each is the same
try/except shape): log the call, await the provider, log the result count
and return the raw provider result; on any exception, log the error and
return `create_error_response(error, query, func_name)`. The provider
outcome (a value or a raised fault) is a parameter; log-message quote marks
of the source f-strings are elided. -/
def tool_call_body (func_name : String) (results_label : String)
    (query : String) (provider_outcome : Except PyExc Json) :
    List LogRecord × Json :=
  let callLog : LogRecord :=
    LogRecord.mk LogLevel.info
      ("Calling " ++ func_name ++ " tool with query: " ++ query)
  match provider_outcome with
  | Except.ok result =>
    match pyLen result with
    | Except.ok n =>
      ([callLog,
        LogRecord.mk LogLevel.info (results_label ++ ": " ++ toString n)],
       result)
    | Except.error e =>
      ([callLog,
        LogRecord.mk LogLevel.err ("Error in " ++ func_name ++ ": " ++ e.msg)],
       Json.obj (create_error_response e query (some func_name)))
  | Except.error e =>
    ([callLog,
      LogRecord.mk LogLevel.err ("Error in " ++ func_name ++ ": " ++ e.msg)],
     Json.obj (create_error_response e query (some func_name)))

/-- Result and logs of a search_web invocation whose provider call finishes
with the given outcome (server.py lines 57-84). -/
def search_web_result (a : SearchWebArgs)
    (provider_outcome : Except PyExc Json) : List LogRecord × Json :=
  tool_call_body "search_web" "Search web results" a.query provider_outcome

/-- Result and logs of a search_finance invocation (server.py lines
122-149). -/
def search_finance_result (a : SearchTopicArgs)
    (provider_outcome : Except PyExc Json) : List LogRecord × Json :=
  tool_call_body "search_finance" "Search finance results" a.query
    provider_outcome

/-- Result and logs of a search_news invocation (server.py lines 187-214). -/
def search_news_result (a : SearchTopicArgs)
    (provider_outcome : Except PyExc Json) : List LogRecord × Json :=
  tool_call_body "search_news" "Search news results" a.query provider_outcome

-- -----------------------------------------------------------
-- Theorems
-- -----------------------------------------------------------

/-- C1: evaluation of the middleware chain at a wrapped call that raises
ValueError boom, with a configured logger. The fault is re-raised unchanged
to the caller, but the number of error-severity log records is zero rather
than the one the claim requires: ErrorHandlingMiddleware spells the logging
keyword exec_info instead of exc_info, so logger.error raises TypeError
before emitting, and the inner handler swallows it. -/
theorem C1_fault_reraised_but_never_logged :
    middlewareChain (some ())
        (sleepThen 0 (Except.error (PyExc.mk "ValueError" "boom"))) initState
      = (InvState.mk [LogRecord.mk LogLevel.info "Start Processing Tool Request"]
           0 (some 0),
         Except.error (PyExc.mk "ValueError" "boom"))
    ∧ errorLogCount (middlewareChain (some ())
        (sleepThen 0 (Except.error (PyExc.mk "ValueError" "boom"))) initState).1.logs
      = 0 :=
  ⟨rfl, rfl⟩

/-- C2: evaluation of the middleware chain at a wrapped call that would
succeed with payload, when the logger is absent. The claim requires the
call to return its success value with instrumentation skipped silently;
instead LoggingMiddleware calls warning on the None logger, the raised
AttributeError is re-raised by its outer handler, and the invocation fails
before the delegate ever runs (the clock never advances). -/
theorem C2_absent_logger_fails_the_call :
    middlewareChain none (sleepThen 5 (Except.ok (Json.str "payload"))) initState
      = (InvState.mk [] 0 (some 0), Except.error noneAttributeError) :=
  rfl

/-- C3: evaluation of the middleware chain at a wrapped call that sleeps 5
milliseconds and returns, with a configured logger. The chain is composed as
errorHandling (timing (logging tool)) and the recorded duration is 5, at
least the delay, but the end log record reports duration_ms=None rather
than the timing value: the logging stage sits inside the timing stage, so
it reads the duration_ms slot before the timing stage writes it. -/
theorem C3_end_log_reports_none :
    middlewareChain (some ())
        (sleepThen 5 (Except.ok (Json.str "results"))) initState
      = (InvState.mk
           [LogRecord.mk LogLevel.info "Start Processing Tool Request",
            LogRecord.mk LogLevel.info
              "Successfully Processed Tool Request : duration_ms=None"]
           5 (some 5),
         Except.ok (Json.str "results")) :=
  rfl

/-- C4: for every query and data, the success envelope built by
create_standard_response has success true, the given query, and the given
data; when data is unset the serialized envelope has no data key. -/
theorem C4_success_envelope_fields (query : String) (data : Option Json) :
    lookupField (create_standard_response true query data none) "success"
        = some (Json.bool true)
    ∧ lookupField (create_standard_response true query data none) "query"
        = some (Json.str query)
    ∧ lookupField (create_standard_response true query data none) "data" = data := by
  refine ⟨?_, ?_, ?_⟩ <;> cases data <;> rfl

/-- C5: for every error, query and func_name, the error envelope built by
create_error_response has success false, error equal to str(error), and a
func_name key present exactly when func_name was supplied. -/
theorem C5_error_envelope_fields (e : PyExc) (query : String)
    (fn : Option String) :
    lookupField (create_error_response e query fn) "success"
        = some (Json.bool false)
    ∧ lookupField (create_error_response e query fn) "error"
        = some (Json.str (PyExc.toStr e))
    ∧ lookupField (create_error_response e query fn) "func_name"
        = fn.map Json.str := by
  refine ⟨?_, ?_, ?_⟩ <;> cases fn <;> rfl

/-- C6: serialization of each builder output carries exactly the required
keys plus those optional fields that are set: key presence depends only on
whether the optional value is absent, never on its truthiness, so a field
set to false or 0 is retained and an unset optional field is dropped, while
success, query and (for the error shape) error are always present. -/
theorem C6_serialization_presence (success : Bool) (query : String)
    (data : Option Json) (error : Option String)
    (e : PyExc) (q : String) (fn : Option String) :
    envelopeKeys (create_standard_response success query data error)
      = ["success", "query"]
          ++ (if data.isSome then ["data"] else [])
          ++ (if error.isSome then ["error"] else [])
    ∧ envelopeKeys (create_error_response e q fn)
      = ["success", "query", "error"]
          ++ (if fn.isSome then ["func_name"] else []) := by
  constructor
  · cases data <;> cases error <;> rfl
  · cases fn <;> rfl

/-- C7: the claim expects the builders to accept additional caller-supplied
keyword pairs and merge them into the output; evaluating the call model at
one extra keyword shows both builders instead fail with TypeError, because
their defs in base_server.py declare no kwargs even though the pydantic
models are configured with extra=allow. -/
theorem C7_extra_kwargs_raise_type_error :
    call_create_standard_response true "weather today" none none
        [("source", Json.str "tavily")] = PyCall.typeError
    ∧ call_create_error_response (PyExc.mk "ValueError" "timeout") "bad query"
        (some "search_web") [("attempt", Json.num 2)] = PyCall.typeError :=
  ⟨rfl, rfl⟩

/-- C8: for every tool argument record and every provider fault, each of the
three search tools returns the error envelope carrying the originating
query and the tool name (never the raw fault, which is consumed by the
except block), and exactly one error log record is emitted at the tool
boundary. -/
theorem C8_provider_fault_to_envelope (w : SearchWebArgs)
    (f : SearchTopicArgs) (n : SearchTopicArgs) (e : PyExc) :
    (search_web_result w (Except.error e)).2
        = Json.obj (create_error_response e w.query (some "search_web"))
    ∧ errorLogCount (search_web_result w (Except.error e)).1 = 1
    ∧ (search_finance_result f (Except.error e)).2
        = Json.obj (create_error_response e f.query (some "search_finance"))
    ∧ errorLogCount (search_finance_result f (Except.error e)).1 = 1
    ∧ (search_news_result n (Except.error e)).2
        = Json.obj (create_error_response e n.query (some "search_news"))
    ∧ errorLogCount (search_news_result n (Except.error e)).1 = 1 :=
  ⟨rfl, rfl, rfl, rfl, rfl, rfl⟩

/-- C9: for every process environment, constructing the Tavily search client
completes normally with a string api_key (the embedding is a total
function because every operation in the body is non-raising), and the
single warning record is emitted exactly when the stored key equals the
sentinel placeholder; in particular an absent TAVILY_API_KEY yields the
placeholder and the warning. -/
theorem C9_client_construction_total (env : String → Option String) :
    ((TavilySearchClient_init env).1.isSome = true)
    ∧ ((TavilySearchClient_init env).2 = [tavilyKeyWarning]
        ∨ (TavilySearchClient_init env).2 = [])
    ∧ ((TavilySearchClient_init env).2 = [tavilyKeyWarning]
        ↔ (TavilySearchClient_init env).1 = some tavily_sentinel)
    ∧ (TavilySearchClient_init (fun _ => none)).1 = some tavily_sentinel
    ∧ (TavilySearchClient_init (fun _ => none)).2 = [tavilyKeyWarning] := by
  have hkey : ∃ k : String,
      get_env_variable env "TAVILY_API_KEY" (some tavily_sentinel) = some k := by
    cases h : env "TAVILY_API_KEY" with
    | none => exact ⟨tavily_sentinel, by simp [get_env_variable, h]⟩
    | some v => exact ⟨v, by simp [get_env_variable, h]⟩
  obtain ⟨k, hk⟩ := hkey
  have hinit : TavilySearchClient_init env
      = (some k,
         if some k = some tavily_sentinel then [tavilyKeyWarning] else []) := by
    simp only [TavilySearchClient_init, hk]
  refine ⟨?_, ?_, ?_, rfl, rfl⟩ <;>
    rw [hinit] <;> by_cases hv : k = tavily_sentinel <;> simp [hv]

/-- C10: for every argument record, search_finance calls the provider with
topic finance and search_news with topic news (their argument records
expose no topic parameter at all, so no caller-supplied argument can change
it), while search_web forwards its caller-supplied topic, whose Python
Literal type restricts it to general, news or finance (defaulting to
general when the caller omits it). -/
theorem C10_tool_topics (f n : SearchTopicArgs) (w : SearchWebArgs)
    (h : w.topic = "general" ∨ w.topic = "news" ∨ w.topic = "finance") :
    (search_finance_provider_params f).topic = "finance"
    ∧ (search_news_provider_params n).topic = "news"
    ∧ (search_web_provider_params w).topic = w.topic := by
  refine ⟨rfl, rfl, ?_⟩
  have hstep : (search_web_provider_params w).topic
      = pyOrStr (some w.topic) "general" := rfl
  rcases h with h | h | h <;> rw [hstep, h] <;> rfl

/-- Concrete argument record for the finance and news tools, used to
instantiate C10. -/
def sampleTopicArgs : SearchTopicArgs :=
  SearchTopicArgs.mk "nvda stock" "basic" none none none none 5 none none
    none none none 60 none

/-- Concrete argument record for the search_web tool with the default
topic, used to instantiate C10. -/
def sampleWebArgs : SearchWebArgs :=
  SearchWebArgs.mk "weather today" "basic" "general" none none none none 5
    none none none none none 60 none

/-- C10 witness: the topic properties at concrete argument records, with the
Literal-type hypothesis discharged at topic general. -/
theorem C10_tool_topics_witness :
    (search_finance_provider_params sampleTopicArgs).topic = "finance"
    ∧ (search_news_provider_params sampleTopicArgs).topic = "news"
    ∧ (search_web_provider_params sampleWebArgs).topic = "general" := by
  have h := C10_tool_topics sampleTopicArgs sampleTopicArgs sampleWebArgs
    (Or.inl rfl)
  exact ⟨h.1, h.2.1, h.2.2.trans rfl⟩

end Spec2Proof
